import Mathlib

/-!
Shallow embedding of the pan/tilt motion coordinator of this repository.

The primary implementation is `src/ESP32_Servo_Controller/src/new1.cpp`:
`webSocketEvent` (core 0) decodes inbound JSON messages, emits ACK/STATUS
messages and manipulates shared state; `taskMotion` (core 1) dequeues
absolute commands when idle and steps the actuator once every
STEP_INTERVAL_MS.  All cross-core accesses in the source are wrapped in
`noInterrupts()`/`interrupts()` critical sections, so the two units are
modelled as atomic functions on one state record interleaved arbitrarily.
`targetPan`/`targetTilt` are C `float`s that only ever hold integral values
in [0,180] (they are assigned from `int` fields), and the float tests
`fabs(a-b) > 0.01f`, `ceil`, `round` on such values coincide with exact
integer arithmetic, so they are embedded as `Int`.  `millis()` timestamps
are embedded as `Nat`; the unsigned subtraction `now - cmdStartMillis`
agrees with truncated `Nat` subtraction because the clock is monotone and
`cmdStartMillis` is always a past reading.

The HTTP-polling variants (`final.cpp`, `ESP Structured/nodemcu_backend.cpp`)
are embedded in namespaces `FinalCpp` and `Nodemcu`.
-/

/-- PAN_MIN from new1.cpp line 34. -/
def PAN_MIN : Int := 0

/-- PAN_MAX from new1.cpp line 35. -/
def PAN_MAX : Int := 180

/-- TILT_MIN from new1.cpp line 36. -/
def TILT_MIN : Int := 0

/-- TILT_MAX from new1.cpp line 37. -/
def TILT_MAX : Int := 180

/-- TILT_MIN_SAFE from new1.cpp line 38. -/
def TILT_MIN_SAFE : Int := 45

/-- STEP_INTERVAL_MS from new1.cpp line 40. -/
def STEP_INTERVAL_MS : Nat := 15

/-- STEP_SIZE from new1.cpp line 41. -/
def STEP_SIZE : Int := 1

/-- COMMAND_TIMEOUT_MS from new1.cpp line 42. -/
def COMMAND_TIMEOUT_MS : Nat := 4000

/-- Arduino constrain(amt, low, high). -/
def constrain (x lo hi : Int) : Int :=
  if x < lo then lo else if x > hi then hi else x

/-- Cmd struct from new1.cpp lines 49-53: entry of the absolute MOVE queue. -/
structure Cmd where
  id : String
  pan : Int
  tilt : Int
deriving Repr, DecidableEq

/-- The shared mutable state of new1.cpp (globals at lines 56-74). -/
structure St where
  cmdQueue : List Cmd
  hasActive : Bool
  activeCmdId : String
  activeMode : Nat
  currentPan : Int
  currentTilt : Int
  targetPan : Int
  targetTilt : Int
  cancelFlag : Bool
  preemptFlag : Bool
  cmdStartMillis : Nat
  panDir : Int
  tiltDir : Int
  moveSpeed : Int
deriving Repr, DecidableEq

/-- Outbound protocol messages built by sendAck / sendStatus / the
STATUS_REQ snapshot in new1.cpp. -/
inductive OutMsg where
  | ack (id : String)
  | status (id : String) (state : String) (pan tilt : Int) (error : Option String)
  | snapshot (state : String) (pan tilt : Int) (cmdId : Option String)
deriving Repr, DecidableEq

/-- Result of `deserializeJson` on one inbound text frame: either a parse
error, or a document whose fields may each be present or absent
(`doc["k"] | dflt` reads a field with a default). -/
inductive Inbound where
  | parseError : Inbound
  | json (ty : Option String) (idField : Option String) (pan tilt : Option Int)
      (pan_dir tilt_dir : Option String) (speed : Option Int) : Inbound

/-- Decoding of the pan_dir string, new1.cpp lines 169-170. -/
def panDirOf (d : String) : Int :=
  if d = "LEFT" then -1 else if d = "RIGHT" then 1 else 0

/-- Decoding of the tilt_dir string, new1.cpp lines 171-172. -/
def tiltDirOf (d : String) : Int :=
  if d = "DOWN" then -1 else if d = "UP" then 1 else 0

/-- The CANCEL handler's queue scan, new1.cpp lines 133-139: erase the
first entry whose id matches. -/
def eraseFirstById : List Cmd → String → List Cmd
  | [], _ => []
  | c :: rest, sid => if c.id = sid then rest else c :: eraseFirstById rest sid

/-- MOVE branch of webSocketEvent, new1.cpp lines 101-119 (id already
checked non-empty by the caller). -/
def handleMove (s : St) (id : String) (panIn tiltIn : Option Int) : St × List OutMsg :=
  let pan0 := panIn.getD s.currentPan
  let tilt0 := tiltIn.getD s.currentTilt
  let tilt1 := max tilt0 TILT_MIN_SAFE
  let pan1 := constrain pan0 PAN_MIN PAN_MAX
  let tilt2 := constrain tilt1 TILT_MIN TILT_MAX
  ({ s with cmdQueue := s.cmdQueue ++ [⟨id, pan1, tilt2⟩],
            preemptFlag := s.hasActive || s.preemptFlag },
   [OutMsg.ack id])

/-- CANCEL branch of webSocketEvent, new1.cpp lines 122-145. -/
def handleCancel (s : St) (sid : String) : St × List OutMsg :=
  if s.hasActive = true ∧ s.activeCmdId = sid then
    ({ s with cancelFlag := true },
     [OutMsg.ack sid, OutMsg.status sid "CANCELLED" s.currentPan s.currentTilt none])
  else if ∃ c ∈ s.cmdQueue, c.id = sid then
    ({ s with cmdQueue := eraseFirstById s.cmdQueue sid },
     [OutMsg.ack sid, OutMsg.status sid "CANCELLED" s.currentPan s.currentTilt none])
  else
    (s, [OutMsg.ack sid, OutMsg.status sid "ERROR" s.currentPan s.currentTilt (some "not_active")])

/-- STATUS_REQ branch of webSocketEvent, new1.cpp lines 148-156. -/
def handleStatusReq (s : St) : St × List OutMsg :=
  (s, [OutMsg.snapshot
        (if s.hasActive = true then (if s.activeMode = 1 then "BUSY_ABS" else "BUSY_DIR") else "IDLE")
        s.currentPan s.currentTilt
        (if s.hasActive = true then some s.activeCmdId else none)])

/-- MOVE_DIR branch of webSocketEvent, new1.cpp lines 159-211 (id already
checked non-empty by the caller). -/
def handleMoveDir (s : St) (id : String) (pd td : String) (speedIn : Int) (now : Nat) :
    St × List OutMsg :=
  let speed := max 1 (min 10 speedIn)
  let newPanDir := panDirOf pd
  let newTiltDir := tiltDirOf td
  let preMsgs : List OutMsg :=
    if s.hasActive = true ∧ s.activeMode = 1 then
      [OutMsg.status s.activeCmdId "PREEMPTED" s.currentPan s.currentTilt none]
    else []
  let s1 : St :=
    { s with
      preemptFlag := (s.hasActive && decide (s.activeMode = 1)) || s.preemptFlag,
      activeCmdId := id, activeMode := 2,
      panDir := newPanDir, tiltDir := newTiltDir, moveSpeed := speed,
      hasActive := decide (newPanDir ≠ 0 ∨ newTiltDir ≠ 0),
      cancelFlag := false, cmdStartMillis := now }
  if newPanDir ≠ 0 ∨ newTiltDir ≠ 0 then
    ({ s1 with hasActive := true },
     OutMsg.ack id :: preMsgs ++ [OutMsg.status id "MOVING" s.currentPan s.currentTilt none])
  else
    ({ s1 with activeMode := 0, hasActive := false, activeCmdId := "" },
     OutMsg.ack id :: preMsgs ++ [OutMsg.status id "STOPPED" s.currentPan s.currentTilt none])

/-- STOP branch of webSocketEvent, new1.cpp lines 215-238 (the id is
optional and defaults to the empty string). -/
def handleStop (s : St) (sid : String) : St × List OutMsg :=
  if s.hasActive = true ∧ s.activeMode = 2 ∧ (sid = "" ∨ s.activeCmdId = sid) then
    ({ s with panDir := 0, tiltDir := 0, activeMode := 0, hasActive := false,
              cancelFlag := false, preemptFlag := false },
     [OutMsg.ack sid, OutMsg.status sid "STOPPED" s.currentPan s.currentTilt none])
  else
    (s, [OutMsg.ack sid, OutMsg.status sid "ERROR" s.currentPan s.currentTilt (some "not_active")])

/-- webSocketEvent for a WStype_TEXT frame, new1.cpp lines 90-240: the
dispatcher on the `type` discriminator (`doc["type"] | ""`), dropping
unparseable messages, unknown types, and MOVE/CANCEL/MOVE_DIR frames with
a missing or empty id. -/
def webSocketEvent (s : St) (inb : Inbound) (now : Nat) : St × List OutMsg :=
  match inb with
  | Inbound.parseError => (s, [])
  | Inbound.json ty idField panIn tiltIn pdIn tdIn spIn =>
    let t := ty.getD ""
    if t = "MOVE" then
      let id := idField.getD ""
      if id = "" then (s, []) else handleMove s id panIn tiltIn
    else if t = "CANCEL" then
      let id := idField.getD ""
      if id = "" then (s, []) else handleCancel s id
    else if t = "STATUS_REQ" then
      handleStatusReq s
    else if t = "MOVE_DIR" then
      let id := idField.getD ""
      if id = "" then (s, [])
      else handleMoveDir s id (pdIn.getD "NONE") (tdIn.getD "NONE") (spIn.getD 1) now
    else if t = "STOP" then
      handleStop s (idField.getD "")
    else (s, [])

/-- Queue-drain phase of taskMotion, new1.cpp lines 280-298: when idle and
the queue is non-empty, pop the earliest absolute command and install it. -/
def dequeuePhase (s : St) (now : Nat) : St :=
  if s.hasActive = false then
    match s.cmdQueue with
    | [] => s
    | c :: rest =>
      { s with cmdQueue := rest, hasActive := true, activeCmdId := c.id, activeMode := 1,
               targetPan := c.pan, targetTilt := max c.tilt TILT_MIN_SAFE,
               cmdStartMillis := now, cancelFlag := false, preemptFlag := false,
               panDir := 0, tiltDir := 0 }
  else s

/-- One absolute pan step, new1.cpp lines 349-353. -/
def stepPanAbs (cur target : Int) : Int :=
  if cur ≠ target then
    constrain (if target > cur then cur + min STEP_SIZE (target - cur)
               else cur - min STEP_SIZE (cur - target)) PAN_MIN PAN_MAX
  else cur

/-- One absolute tilt step, new1.cpp lines 355-360 (floored at
TILT_MIN_SAFE before the final constrain). -/
def stepTiltAbs (cur target : Int) : Int :=
  if cur ≠ target then
    constrain (max (if target > cur then cur + min STEP_SIZE (target - cur)
                    else cur - min STEP_SIZE (cur - target)) TILT_MIN_SAFE) TILT_MIN TILT_MAX
  else cur

/-- One directional pan step, new1.cpp lines 311-318. -/
def dirPanNext (s : St) : Int :=
  if s.panDir ≠ 0 then constrain (s.currentPan + s.panDir * s.moveSpeed) PAN_MIN PAN_MAX
  else s.currentPan

/-- One directional tilt step, new1.cpp lines 306-326: downward motion is
neutralized for this tick when tilt is already at or below the safety
floor, and the result is constrained from TILT_MIN_SAFE. -/
def dirTiltNext (s : St) : Int :=
  let actual := if s.tiltDir = -1 ∧ s.currentTilt ≤ TILT_MIN_SAFE then 0 else s.tiltDir
  if actual ≠ 0 then constrain (s.currentTilt + actual * s.moveSpeed) TILT_MIN_SAFE TILT_MAX
  else s.currentTilt

/-- Stepping phase of taskMotion, new1.cpp lines 300-379, executed once per
STEP_INTERVAL_MS: directional motion with its cancel/timeout checks, or
absolute motion with its cancel/preempt/success/timeout checks. -/
def stepPhase (s : St) (now : Nat) : St × List OutMsg :=
  if s.activeMode = 2 then
    let p2 := dirPanNext s
    let t2 := dirTiltNext s
    let sMoved := { s with currentPan := p2, currentTilt := t2 }
    if s.cancelFlag = true then
      ({ sMoved with hasActive := false, activeCmdId := "", activeMode := 0,
                     cancelFlag := false, panDir := 0, tiltDir := 0 },
       [OutMsg.status s.activeCmdId "CANCELLED" p2 t2 none])
    else if now - s.cmdStartMillis > COMMAND_TIMEOUT_MS then
      ({ sMoved with hasActive := false, activeCmdId := "", activeMode := 0,
                     panDir := 0, tiltDir := 0 },
       if s.panDir ≠ 0 ∨ s.tiltDir ≠ 0 then
         [OutMsg.status s.activeCmdId "TIMEOUT" p2 t2 none]
       else [])
    else (sMoved, [])
  else if s.activeMode = 1 then
    let p2 := stepPanAbs s.currentPan s.targetPan
    let t2 := stepTiltAbs s.currentTilt s.targetTilt
    let sMoved := { s with currentPan := p2, currentTilt := t2 }
    if s.cancelFlag = true then
      ({ sMoved with hasActive := false, activeCmdId := "", activeMode := 0, cancelFlag := false },
       [OutMsg.status s.activeCmdId "CANCELLED" p2 t2 none])
    else if s.preemptFlag = true then
      ({ sMoved with hasActive := false, activeCmdId := "", activeMode := 0, preemptFlag := false },
       [])
    else if p2 = s.targetPan ∧ t2 = s.targetTilt then
      ({ sMoved with hasActive := false, activeCmdId := "", activeMode := 0 },
       [OutMsg.status s.activeCmdId "SUCCESS" p2 t2 none])
    else if now - s.cmdStartMillis > COMMAND_TIMEOUT_MS then
      ({ sMoved with hasActive := false, activeCmdId := "", activeMode := 0 },
       [OutMsg.status s.activeCmdId "TIMEOUT" p2 t2 none])
    else (sMoved, [])
  else (s, [])

/-- One iteration of the taskMotion loop at a step boundary: the dequeue
phase followed by the stepping phase. -/
def tick (s : St) (now : Nat) : St × List OutMsg :=
  stepPhase (dequeuePhase s now) now

/-- Iterate `tick` on the canonical 15 ms schedule, accumulating the
emitted messages (tick k runs at time k * STEP_INTERVAL_MS). -/
def runTicks (s : St) : Nat → St × List OutMsg
  | 0 => (s, [])
  | Nat.succ n =>
    let r := runTicks s n
    let r2 := tick r.1 ((n + 1) * STEP_INTERVAL_MS)
    (r2.1, r.2 ++ r2.2)

/-- The initial state of new1.cpp: idle at pan=90, tilt=90, empty queue. -/
def initSt : St :=
  { cmdQueue := [], hasActive := false, activeCmdId := "", activeMode := 0,
    currentPan := 90, currentTilt := 90, targetPan := 90, targetTilt := 90,
    cancelFlag := false, preemptFlag := false, cmdStartMillis := 0,
    panDir := 0, tiltDir := 0, moveSpeed := 1 }

/-- States reachable from the initial state by any interleaving of decoded
inbound messages and stepping ticks. -/
inductive Reachable : St → Prop where
  | init : Reachable initSt
  | inbound (s : St) (inb : Inbound) (now : Nat) :
      Reachable s → Reachable (webSocketEvent s inb now).1
  | tickStep (s : St) (now : Nat) :
      Reachable s → Reachable (tick s now).1

/-- The safety envelope of the actuator position. -/
def SafeEnv (s : St) : Prop :=
  PAN_MIN ≤ s.currentPan ∧ s.currentPan ≤ PAN_MAX ∧
  TILT_MIN_SAFE ≤ s.currentTilt ∧ s.currentTilt ≤ TILT_MAX

/-- Recognizer for STATUS messages. -/
def isStatus : OutMsg → Bool
  | OutMsg.status _ _ _ _ _ => true
  | _ => false

/-- Recognizer for a SUCCESS status bearing a given id. -/
def isSuccessFor (id : String) : OutMsg → Bool
  | OutMsg.status i st _ _ _ => i == id && st == "SUCCESS"
  | _ => false

/-- Recognizer for any STATUS bearing a given id. -/
def isStatusFor (id : String) : OutMsg → Bool
  | OutMsg.status i _ _ _ _ => i == id
  | _ => false

/-- Recognizer for a MOVING status. -/
def isMoving : OutMsg → Bool
  | OutMsg.status _ st _ _ _ => st == "MOVING"
  | _ => false

/-- Recognizer for a TIMEOUT status. -/
def isTimeout : OutMsg → Bool
  | OutMsg.status _ st _ _ _ => st == "TIMEOUT"
  | _ => false

/-- A decoded MOVE frame. -/
def mvMsg (id : String) (pan tilt : Int) : Inbound :=
  Inbound.json (some "MOVE") (some id) (some pan) (some tilt) none none none

/-- A decoded CANCEL frame. -/
def cancelMsg (id : String) : Inbound :=
  Inbound.json (some "CANCEL") (some id) none none none none none

/-- A decoded MOVE_DIR frame. -/
def mdMsg (id pd td : String) (speed : Int) : Inbound :=
  Inbound.json (some "MOVE_DIR") (some id) none none (some pd) (some td) (some speed)

/-- A decoded STOP frame with optional id. -/
def stopMsg (idField : Option String) : Inbound :=
  Inbound.json (some "STOP") idField none none none none none

/-- A state executing an absolute command (mode 1) with empty queue,
clear flags and start time 0. -/
def absState (id : String) (p t tp tt : Int) : St :=
  { cmdQueue := [], hasActive := true, activeCmdId := id, activeMode := 1,
    currentPan := p, currentTilt := t, targetPan := tp, targetTilt := tt,
    cancelFlag := false, preemptFlag := false, cmdStartMillis := 0,
    panDir := 0, tiltDir := 0, moveSpeed := 1 }

/-- The idle state left behind once the absolute command of `absState`
reaches its target and emits SUCCESS. -/
def doneAbs (tp tt : Int) : St :=
  { cmdQueue := [], hasActive := false, activeCmdId := "", activeMode := 0,
    currentPan := tp, currentTilt := tt, targetPan := tp, targetTilt := tt,
    cancelFlag := false, preemptFlag := false, cmdStartMillis := 0,
    panDir := 0, tiltDir := 0, moveSpeed := 1 }

/-- Position of an axis after k unit steps toward the target. -/
def approach (p tp : Int) (k : Nat) : Int :=
  if p ≤ tp then min (p + k) tp else max (p - k) tp

/-- Number of ticks the capped unit step needs to bring both axes onto the
target: the max of the two per-axis distances (STEP_SIZE = 1). -/
def ticksNeeded (p t tp tt : Int) : Nat :=
  max (tp - p).natAbs (tt - t).natAbs

namespace FinalCpp

/-- PAN_MIN from final.cpp line 22. -/
def PAN_MIN : Int := 0

/-- PAN_MAX from final.cpp line 23. -/
def PAN_MAX : Int := 180

/-- TILT_MAX from final.cpp line 25. -/
def TILT_MAX : Int := 180

/-- TILT_MIN_SAFE from final.cpp line 26. -/
def TILT_MIN_SAFE : Int := 45

/-- STEP_SIZE from final.cpp line 28. -/
def STEP_SIZE : Int := 5

/-- The pan/tilt globals of final.cpp. -/
structure WebSt where
  pan : Int
  tilt : Int
deriving Repr, DecidableEq

/-- HTTP reply sent by a route of final.cpp. -/
inductive Resp where
  | badRequest (body : String)
  | okJson (pan tilt : Int)
deriving Repr, DecidableEq

/-- HTTP status code of a reply. -/
def Resp.code : Resp → Nat
  | Resp.badRequest _ => 400
  | Resp.okJson _ _ => 200

/-- The if-else chain of handleMove, final.cpp lines 141-144. -/
def applyDir (pan tilt : Int) (d : String) : Int × Int :=
  if d = "pan_left" then (max PAN_MIN (pan - STEP_SIZE), tilt)
  else if d = "pan_right" then (min PAN_MAX (pan + STEP_SIZE), tilt)
  else if d = "tilt_up" then (pan, min TILT_MAX (tilt + STEP_SIZE))
  else if d = "tilt_down" then (pan, max TILT_MIN_SAFE (tilt - STEP_SIZE))
  else (pan, tilt)

/-- handleMove from final.cpp lines 136-152. -/
def handleMove (s : WebSt) (dirArg : Option String) : WebSt × Resp :=
  match dirArg with
  | none => (s, Resp.badRequest "Missing dir")
  | some d =>
    let pt := applyDir s.pan s.tilt d
    ({ pan := pt.1, tilt := pt.2 }, Resp.okJson pt.1 pt.2)

end FinalCpp

namespace Nodemcu

/-- PAN_MIN from nodemcu_backend.cpp line 17. -/
def PAN_MIN : Int := 0

/-- PAN_MAX from nodemcu_backend.cpp line 17. -/
def PAN_MAX : Int := 180

/-- TILT_MIN_SAFE from nodemcu_backend.cpp line 18. -/
def TILT_MIN_SAFE : Int := 45

/-- TILT_MAX from nodemcu_backend.cpp line 18. -/
def TILT_MAX : Int := 180

/-- STEP_SIZE from nodemcu_backend.cpp line 18. -/
def STEP_SIZE : Int := 5

/-- The pan/tilt globals of nodemcu_backend.cpp. -/
structure WebSt where
  pan : Int
  tilt : Int
deriving Repr, DecidableEq

/-- HTTP reply sent by a route of nodemcu_backend.cpp. -/
inductive Resp where
  | badRequest (body : String)
  | okJson (pan tilt : Int)
deriving Repr, DecidableEq

/-- HTTP status code of a reply. -/
def Resp.code : Resp → Nat
  | Resp.badRequest _ => 400
  | Resp.okJson _ _ => 200

/-- The if-else chain of handleMove, nodemcu_backend.cpp lines 71-74. -/
def applyDir (pan tilt : Int) (d : String) : Int × Int :=
  if d = "pan_left" then (max PAN_MIN (pan - STEP_SIZE), tilt)
  else if d = "pan_right" then (min PAN_MAX (pan + STEP_SIZE), tilt)
  else if d = "tilt_up" then (pan, min TILT_MAX (tilt + STEP_SIZE))
  else if d = "tilt_down" then (pan, max TILT_MIN_SAFE (tilt - STEP_SIZE))
  else (pan, tilt)

/-- handleMove from nodemcu_backend.cpp lines 61-79. -/
def handleMove (s : WebSt) (dirArg : Option String) : WebSt × Resp :=
  match dirArg with
  | none => (s, Resp.badRequest "Missing dir")
  | some d =>
    let pt := applyDir s.pan s.tilt d
    ({ pan := pt.1, tilt := pt.2 }, Resp.okJson pt.1 pt.2)

end Nodemcu

/-- The condition under which the CANCEL handler reports CANCELLED
(new1.cpp lines 128-141): the id names the active operation, or some
still-queued command. -/
def cancelFound (s : St) (sid : String) : Prop :=
  (s.hasActive = true ∧ s.activeCmdId = sid) ∨ (∃ c ∈ s.cmdQueue, c.id = sid)

/-- Concrete run for the queueing scenario: from the initial idle state,
decode MOVE(id "A", pan 92, tilt 90); one tick (A is dequeued and becomes
the active absolute operation); decode MOVE(id "B", pan 92, tilt 90) while
A is still in flight; then three more ticks.  The pair is the final state
and the full concatenated message trace. -/
def c1Trace : St × List OutMsg :=
  let r1 := webSocketEvent initSt (mvMsg "A" 92 90) 0
  let r2 := tick r1.1 15
  let r3 := webSocketEvent r2.1 (mvMsg "B" 92 90) 20
  let r4 := tick r3.1 30
  let r5 := tick r4.1 45
  let r6 := tick r5.1 60
  (r6.1, r1.2 ++ r2.2 ++ r3.2 ++ r4.2 ++ r5.2 ++ r6.2)

/-- A concrete state with a directional operation of id "d" active,
panning right at speed 1, started at time 0. -/
def dirActiveSt : St :=
  { initSt with hasActive := true, activeMode := 2, activeCmdId := "d", panDir := 1 }

lemma constrain_bounds (x lo hi : Int) (h : lo ≤ hi) :
    lo ≤ constrain x lo hi ∧ constrain x lo hi ≤ hi := by
  unfold constrain; split_ifs <;> omega

lemma approach_zero (p tp : Int) : approach p tp 0 = p := by
  unfold approach; split_ifs <;> simp <;> omega

lemma approach_between (p tp : Int) (k : Nat) :
    min p tp ≤ approach p tp k ∧ approach p tp k ≤ max p tp := by
  unfold approach; split_ifs <;> omega

lemma approach_eq_target (p tp : Int) (k : Nat) :
    approach p tp k = tp ↔ (tp - p).natAbs ≤ k := by
  unfold approach; split_ifs <;> omega

lemma stepPanAbs_approach (p tp : Int) (k : Nat)
    (hp0 : 0 ≤ p) (hp1 : p ≤ 180) (ht0 : 0 ≤ tp) (ht1 : tp ≤ 180) :
    stepPanAbs (approach p tp k) tp = approach p tp (k + 1) := by
  unfold stepPanAbs approach constrain STEP_SIZE PAN_MIN PAN_MAX
  push_cast
  split_ifs <;> omega

lemma stepTiltAbs_approach (t tt : Int) (k : Nat)
    (ht0 : 45 ≤ t) (ht1 : t ≤ 180) (htt0 : 45 ≤ tt) (htt1 : tt ≤ 180) :
    stepTiltAbs (approach t tt k) tt = approach t tt (k + 1) := by
  unfold stepTiltAbs approach constrain STEP_SIZE TILT_MIN_SAFE TILT_MIN TILT_MAX
  push_cast
  split_ifs <;> omega

lemma tick_absState_not_reached (id : String) (p t tp tt : Int) (now : Nat)
    (hnow : now ≤ COMMAND_TIMEOUT_MS)
    (h : ¬(stepPanAbs p tp = tp ∧ stepTiltAbs t tt = tt)) :
    tick (absState id p t tp tt) now =
      (absState id (stepPanAbs p tp) (stepTiltAbs t tt) tp tt, []) := by
  have hto : ¬(now - 0 > COMMAND_TIMEOUT_MS) := by omega
  simp [tick, dequeuePhase, stepPhase, absState, h, hto]
  exact hnow

lemma tick_absState_reached (id : String) (p t tp tt : Int) (now : Nat)
    (hp : stepPanAbs p tp = tp) (ht : stepTiltAbs t tt = tt) :
    tick (absState id p t tp tt) now =
      (doneAbs tp tt, [OutMsg.status id "SUCCESS" tp tt none]) := by
  simp [tick, dequeuePhase, stepPhase, absState, doneAbs, hp, ht]

lemma tick_doneAbs (tp tt : Int) (now : Nat) :
    tick (doneAbs tp tt) now = (doneAbs tp tt, []) := by
  simp [tick, dequeuePhase, stepPhase, doneAbs]

lemma runTicks_absState (id : String) (p t tp tt : Int)
    (hp0 : 0 ≤ p) (hp1 : p ≤ 180) (htp0 : 0 ≤ tp) (htp1 : tp ≤ 180)
    (ht0 : 45 ≤ t) (ht1 : t ≤ 180) (htt0 : 45 ≤ tt) (htt1 : tt ≤ 180)
    (k : Nat) :
    runTicks (absState id p t tp tt) k =
      if k < max (ticksNeeded p t tp tt) 1 then
        (absState id (approach p tp k) (approach t tt k) tp tt, [])
      else
        (doneAbs tp tt, [OutMsg.status id "SUCCESS" tp tt none]) := by
  have hN : ticksNeeded p t tp tt ≤ 180 := by unfold ticksNeeded; omega
  induction k with
  | zero =>
    rw [if_pos (by omega)]
    simp [runTicks, approach_zero]
  | succ k ih =>
    have hpan := approach_between p tp k
    have htilt := approach_between t tt k
    have hpaneq := approach_eq_target p tp (k + 1)
    have htilteq := approach_eq_target t tt (k + 1)
    have hstep1 := stepPanAbs_approach p tp k hp0 hp1 htp0 htp1
    have hstep2 := stepTiltAbs_approach t tt k ht0 ht1 htt0 htt1
    by_cases hk : k < max (ticksNeeded p t tp tt) 1
    · rw [if_pos hk] at ih
      have hnow : (k + 1) * STEP_INTERVAL_MS ≤ COMMAND_TIMEOUT_MS := by
        unfold STEP_INTERVAL_MS COMMAND_TIMEOUT_MS; omega
      by_cases hk1 : k + 1 < max (ticksNeeded p t tp tt) 1
      · rw [if_pos hk1]
        have hnr : ¬(stepPanAbs (approach p tp k) tp = tp ∧
                     stepTiltAbs (approach t tt k) tt = tt) := by
          rw [hstep1, hstep2, hpaneq, htilteq]
          unfold ticksNeeded at hk1
          omega
        simp only [runTicks, ih]
        rw [tick_absState_not_reached id _ _ tp tt _ hnow hnr, hstep1, hstep2]
        simp
      · rw [if_neg hk1]
        have hr1 : stepPanAbs (approach p tp k) tp = tp := by
          rw [hstep1, hpaneq]; unfold ticksNeeded at hk1; omega
        have hr2 : stepTiltAbs (approach t tt k) tt = tt := by
          rw [hstep2, htilteq]; unfold ticksNeeded at hk1; omega
        simp only [runTicks, ih]
        rw [tick_absState_reached id _ _ tp tt _ hr1 hr2]
        simp
    · rw [if_neg hk] at ih
      rw [if_neg (by omega)]
      simp only [runTicks, ih]
      rw [tick_doneAbs]
      simp

theorem c4_absolute_convergence (id : String) (p t tp tt : Int)
    (hp0 : PAN_MIN ≤ p) (hp1 : p ≤ PAN_MAX) (htp0 : PAN_MIN ≤ tp) (htp1 : tp ≤ PAN_MAX)
    (ht0 : TILT_MIN_SAFE ≤ t) (ht1 : t ≤ TILT_MAX)
    (htt0 : TILT_MIN_SAFE ≤ tt) (htt1 : tt ≤ TILT_MAX) :
    ((runTicks (absState id p t tp tt) (ticksNeeded p t tp tt)).1.currentPan = tp ∧
     (runTicks (absState id p t tp tt) (ticksNeeded p t tp tt)).1.currentTilt = tt) ∧
    (∀ n, n < ticksNeeded p t tp tt →
      ¬((runTicks (absState id p t tp tt) n).1.currentPan = tp ∧
        (runTicks (absState id p t tp tt) n).1.currentTilt = tt)) ∧
    (∀ n, min p tp ≤ (runTicks (absState id p t tp tt) n).1.currentPan ∧
          (runTicks (absState id p t tp tt) n).1.currentPan ≤ max p tp ∧
          min t tt ≤ (runTicks (absState id p t tp tt) n).1.currentTilt ∧
          (runTicks (absState id p t tp tt) n).1.currentTilt ≤ max t tt) ∧
    (∀ n, ((runTicks (absState id p t tp tt) n).2.countP (isSuccessFor id)) =
          if max (ticksNeeded p t tp tt) 1 ≤ n then 1 else 0) := by
  have key := runTicks_absState id p t tp tt hp0 hp1 htp0 htp1 ht0 ht1 htt0 htt1
  refine ⟨?_, ?_, ?_, ?_⟩
  · rw [key (ticksNeeded p t tp tt)]
    by_cases h : ticksNeeded p t tp tt < max (ticksNeeded p t tp tt) 1
    · rw [if_pos h]
      have h0 : ticksNeeded p t tp tt = 0 := by omega
      have h0' := h0
      unfold ticksNeeded at h0'
      rw [h0]
      simp [absState, approach_zero]
      omega
    · rw [if_neg h]
      simp [doneAbs]
  · intro n hn
    rw [key n, if_pos (by omega)]
    intro hc
    have h1 := (approach_eq_target p tp n).mp
    have h2 := (approach_eq_target t tt n).mp
    simp only [absState] at hc
    unfold ticksNeeded at hn
    have e1 := h1 hc.1
    have e2 := h2 hc.2
    omega
  · intro n
    rw [key n]
    have b1 := approach_between p tp n
    have b2 := approach_between t tt n
    by_cases h : n < max (ticksNeeded p t tp tt) 1
    · rw [if_pos h]
      simp only [absState]
      exact ⟨b1.1, b1.2, b2.1, b2.2⟩
    · rw [if_neg h]
      simp only [doneAbs]
      constructor
      · omega
      constructor
      · omega
      constructor
      · omega
      · omega
  · intro n
    rw [key n]
    by_cases h : n < max (ticksNeeded p t tp tt) 1
    · rw [if_pos h, if_neg (by omega)]
      simp
    · rw [if_neg h, if_pos (by omega)]
      simp [isSuccessFor]

theorem c4_witness :
    (runTicks (absState "m" 90 90 92 91) (ticksNeeded 90 90 92 91)).1.currentPan = 92 ∧
    (runTicks (absState "m" 90 90 92 91) (ticksNeeded 90 90 92 91)).1.currentTilt = 91 :=
  (c4_absolute_convergence "m" 90 90 92 91 (by decide) (by decide) (by decide) (by decide)
    (by decide) (by decide) (by decide) (by decide)).1

lemma wse_pos (s : St) (inb : Inbound) (now : Nat) :
    (webSocketEvent s inb now).1.currentPan = s.currentPan ∧
    (webSocketEvent s inb now).1.currentTilt = s.currentTilt := by
  cases inb with
  | parseError => simp [webSocketEvent]
  | json ty idf p ti pd td sp =>
    unfold webSocketEvent
    dsimp only
    split_ifs <;>
      simp [handleMove, handleCancel, handleStatusReq, handleMoveDir, handleStop] <;>
      split_ifs <;> simp

lemma dequeuePhase_pos (s : St) (now : Nat) :
    (dequeuePhase s now).currentPan = s.currentPan ∧
    (dequeuePhase s now).currentTilt = s.currentTilt := by
  unfold dequeuePhase
  split_ifs
  · rcases s.cmdQueue with _ | ⟨c, rest⟩ <;> simp
  · simp

lemma stepPhase_pan (s : St) (now : Nat) :
    (stepPhase s now).1.currentPan =
      if s.activeMode = 2 then dirPanNext s
      else if s.activeMode = 1 then stepPanAbs s.currentPan s.targetPan
      else s.currentPan := by
  unfold stepPhase
  dsimp only
  split_ifs <;> rfl

lemma stepPhase_tilt (s : St) (now : Nat) :
    (stepPhase s now).1.currentTilt =
      if s.activeMode = 2 then dirTiltNext s
      else if s.activeMode = 1 then stepTiltAbs s.currentTilt s.targetTilt
      else s.currentTilt := by
  unfold stepPhase
  dsimp only
  split_ifs <;> rfl

lemma dirPanNext_bounds (s : St) (h0 : PAN_MIN ≤ s.currentPan) (h1 : s.currentPan ≤ PAN_MAX) :
    PAN_MIN ≤ dirPanNext s ∧ dirPanNext s ≤ PAN_MAX := by
  unfold dirPanNext constrain PAN_MIN PAN_MAX at *
  split_ifs <;> omega

lemma dirTiltNext_bounds (s : St) (h0 : TILT_MIN_SAFE ≤ s.currentTilt)
    (h1 : s.currentTilt ≤ TILT_MAX) :
    TILT_MIN_SAFE ≤ dirTiltNext s ∧ dirTiltNext s ≤ TILT_MAX := by
  unfold dirTiltNext constrain TILT_MIN_SAFE TILT_MAX at *
  dsimp only
  split_ifs <;> omega

lemma stepPanAbs_bounds (cur t : Int) (h0 : PAN_MIN ≤ cur) (h1 : cur ≤ PAN_MAX) :
    PAN_MIN ≤ stepPanAbs cur t ∧ stepPanAbs cur t ≤ PAN_MAX := by
  unfold stepPanAbs constrain PAN_MIN PAN_MAX at *
  split_ifs <;> omega

lemma stepTiltAbs_bounds (cur t : Int) (h0 : TILT_MIN_SAFE ≤ cur) (h1 : cur ≤ TILT_MAX) :
    TILT_MIN_SAFE ≤ stepTiltAbs cur t ∧ stepTiltAbs cur t ≤ TILT_MAX := by
  unfold stepTiltAbs constrain TILT_MIN_SAFE TILT_MIN TILT_MAX at *
  split_ifs <;> omega

lemma dirTiltNext_floor (s : St) (h : TILT_MIN_SAFE ≤ s.currentTilt) :
    TILT_MIN_SAFE ≤ dirTiltNext s := by
  unfold dirTiltNext constrain TILT_MIN_SAFE TILT_MAX at *
  dsimp only
  split_ifs <;> omega

lemma stepTiltAbs_floor (cur t : Int) (h : TILT_MIN_SAFE ≤ cur) :
    TILT_MIN_SAFE ≤ stepTiltAbs cur t := by
  unfold stepTiltAbs constrain TILT_MIN_SAFE TILT_MIN TILT_MAX at *
  split_ifs <;> omega

lemma stepPhase_SafeEnv (s : St) (now : Nat) (h : SafeEnv s) : SafeEnv (stepPhase s now).1 := by
  obtain ⟨h1, h2, h3, h4⟩ := h
  have hp := stepPhase_pan s now
  have ht := stepPhase_tilt s now
  have b1 := dirPanNext_bounds s h1 h2
  have b2 := dirTiltNext_bounds s h3 h4
  have b3 := stepPanAbs_bounds s.currentPan s.targetPan h1 h2
  have b4 := stepTiltAbs_bounds s.currentTilt s.targetTilt h3 h4
  unfold SafeEnv
  rw [hp, ht]
  split_ifs <;> omega

lemma tick_SafeEnv (s : St) (now : Nat) (h : SafeEnv s) : SafeEnv (tick s now).1 := by
  unfold tick
  apply stepPhase_SafeEnv
  have hd := dequeuePhase_pos s now
  unfold SafeEnv at *
  rw [hd.1, hd.2]
  exact h

theorem c2_safety_envelope :
    (∀ s, Reachable s → SafeEnv s) ∧
    (∀ (s : St) (id : String) (panIn tiltIn : Option Int),
      ∃ c : Cmd, (handleMove s id panIn tiltIn).1.cmdQueue = s.cmdQueue ++ [c] ∧
        c.id = id ∧ PAN_MIN ≤ c.pan ∧ c.pan ≤ PAN_MAX ∧
        TILT_MIN_SAFE ≤ c.tilt ∧ c.tilt ≤ TILT_MAX) ∧
    (∀ (s : St) (now : Nat), TILT_MIN_SAFE ≤ s.currentTilt →
        TILT_MIN_SAFE ≤ (tick s now).1.currentTilt) := by
  refine ⟨?_, ?_, ?_⟩
  · intro s hs
    induction hs with
    | init => exact ⟨by decide, by decide, by decide, by decide⟩
    | inbound s inb now _ ih =>
      have hp := wse_pos s inb now
      unfold SafeEnv at *
      rw [hp.1, hp.2]
      exact ih
    | tickStep s now _ ih => exact tick_SafeEnv s now ih
  · intro s id panIn tiltIn
    refine ⟨⟨id, constrain (panIn.getD s.currentPan) PAN_MIN PAN_MAX,
             constrain (max (tiltIn.getD s.currentTilt) TILT_MIN_SAFE) TILT_MIN TILT_MAX⟩,
           ?_, rfl, ?_, ?_, ?_, ?_⟩
    · simp [handleMove]
    · exact (constrain_bounds _ _ _ (by decide)).1
    · exact (constrain_bounds _ _ _ (by decide)).2
    · dsimp only
      unfold constrain TILT_MIN_SAFE TILT_MIN TILT_MAX
      split_ifs <;> omega
    · dsimp only
      unfold constrain TILT_MIN_SAFE TILT_MIN TILT_MAX
      split_ifs <;> omega
  · intro s now h
    have hd := dequeuePhase_pos s now
    unfold tick
    rw [stepPhase_tilt]
    split_ifs
    · exact dirTiltNext_floor _ (by rw [hd.2]; exact h)
    · exact stepTiltAbs_floor _ _ (by rw [hd.2]; exact h)
    · rw [hd.2]; exact h

theorem c2_witness :
    SafeEnv initSt ∧ TILT_MIN_SAFE ≤ (tick initSt 0).1.currentTilt :=
  ⟨c2_safety_envelope.1 initSt Reachable.init,
   c2_safety_envelope.2.2 initSt 0 (by decide)⟩

/-- Claim C1 (refuted by the code, code bug): new1.cpp line 118 sets
preemptFlag on every MOVE that arrives while an operation is active, and
the preempt branch of taskMotion (lines 369-371) clears the active
absolute operation silently, assuming PREEMPTED was already emitted on
the MOVE_DIR path.  Consequently MOVE(B) arriving while absolute A is in
flight terminates A with no terminal STATUS at all; in the concrete run
the full trace is exactly ACK(A), ACK(B), STATUS(SUCCESS, B) — A never
reaches SUCCESS (nor any STATUS) even though B is dequeued and completes,
contradicting the claimed queueing guarantee. -/
theorem c1_move_preempts_active_absolute :
    c1Trace.2 = [OutMsg.ack "A", OutMsg.ack "B",
                 OutMsg.status "B" "SUCCESS" 92 90 none] ∧
    c1Trace.2.countP (isStatusFor "A") = 0 ∧
    c1Trace.1.hasActive = false ∧ c1Trace.1.cmdQueue = [] := by
  decide

lemma wse_moveDir (s : St) (id : String) (panIn tiltIn : Option Int)
    (pd td : Option String) (sp : Option Int) (now : Nat)
    (h : id ≠ "") :
    webSocketEvent s (Inbound.json (some "MOVE_DIR") (some id) panIn tiltIn pd td sp) now
      = handleMoveDir s id (pd.getD "NONE") (td.getD "NONE") (sp.getD 1) now := by
  unfold webSocketEvent
  dsimp only
  simp only [Option.getD_some]
  rw [if_neg (by decide), if_neg (by decide), if_neg (by decide), if_pos trivial, if_neg h]

theorem c3_preemption_ordering (s : St) (b pd td : String) (speed : Int) (now : Nat)
    (hA : s.hasActive = true) (hm : s.activeMode = 1) (hb : b ≠ "")
    (hv : panDirOf pd ≠ 0 ∨ tiltDirOf td ≠ 0) :
    (webSocketEvent s (mdMsg b pd td speed) now).2 =
      [OutMsg.ack b,
       OutMsg.status s.activeCmdId "PREEMPTED" s.currentPan s.currentTilt none,
       OutMsg.status b "MOVING" s.currentPan s.currentTilt none] := by
  unfold mdMsg
  rw [wse_moveDir s b none none (some pd) (some td) (some speed) now hb]
  unfold handleMoveDir
  dsimp only
  simp only [Option.getD_some]
  rw [if_pos hv, if_pos (⟨hA, hm⟩ : s.hasActive = true ∧ s.activeMode = 1)]
  simp

theorem c3_witness :
    (webSocketEvent (absState "A" 90 90 92 90) (mdMsg "B" "LEFT" "NONE" 3) 100).2 =
      [OutMsg.ack "B", OutMsg.status "A" "PREEMPTED" 90 90 none,
       OutMsg.status "B" "MOVING" 90 90 none] := by
  have h := c3_preemption_ordering (absState "A" 90 90 92 90) "B" "LEFT" "NONE" 3 100
    rfl rfl (by decide) (by decide)
  exact h

lemma wse_move (s : St) (id : String) (panIn tiltIn : Option Int)
    (pd td : Option String) (sp : Option Int) (now : Nat) (h : id ≠ "") :
    webSocketEvent s (Inbound.json (some "MOVE") (some id) panIn tiltIn pd td sp) now
      = handleMove s id panIn tiltIn := by
  unfold webSocketEvent
  dsimp only
  simp only [Option.getD_some]
  rw [if_pos trivial, if_neg h]

lemma wse_cancel (s : St) (id : String) (panIn tiltIn : Option Int)
    (pd td : Option String) (sp : Option Int) (now : Nat) (h : id ≠ "") :
    webSocketEvent s (Inbound.json (some "CANCEL") (some id) panIn tiltIn pd td sp) now
      = handleCancel s id := by
  unfold webSocketEvent
  dsimp only
  simp only [Option.getD_some]
  rw [if_neg (by decide), if_pos trivial, if_neg h]

lemma wse_stop (s : St) (idField : Option String) (panIn tiltIn : Option Int)
    (pd td : Option String) (sp : Option Int) (now : Nat) :
    webSocketEvent s (Inbound.json (some "STOP") idField panIn tiltIn pd td sp) now
      = handleStop s (idField.getD "") := by
  unfold webSocketEvent
  dsimp only
  simp only [Option.getD_some]
  rw [if_neg (by decide), if_neg (by decide), if_neg (by decide), if_neg (by decide),
      if_pos trivial]

theorem c5_ack_discipline :
    (∀ (s : St) (now : Nat) (ty idf : Option String) (p ti : Option Int)
       (pd td : Option String) (sp : Option Int),
        (ty = some "MOVE" ∨ ty = some "CANCEL" ∨ ty = some "MOVE_DIR" ∨ ty = some "STOP") →
        idf.getD "" ≠ "" →
        (webSocketEvent s (Inbound.json ty idf p ti pd td sp) now).2.head? =
            some (OutMsg.ack (idf.getD "")) ∧
        (∀ m ∈ (webSocketEvent s (Inbound.json ty idf p ti pd td sp) now).2.tail,
            isStatus m = true)) ∧
    (∀ (s : St) (now : Nat), webSocketEvent s Inbound.parseError now = (s, [])) ∧
    (∀ (s : St) (now : Nat) (ty idf : Option String) (p ti : Option Int)
       (pd td : Option String) (sp : Option Int),
        ty.getD "" ≠ "MOVE" → ty.getD "" ≠ "CANCEL" → ty.getD "" ≠ "STATUS_REQ" →
        ty.getD "" ≠ "MOVE_DIR" → ty.getD "" ≠ "STOP" →
        webSocketEvent s (Inbound.json ty idf p ti pd td sp) now = (s, [])) ∧
    (∀ (s : St) (now : Nat) (ty idf : Option String) (p ti : Option Int)
       (pd td : Option String) (sp : Option Int),
        (ty = some "MOVE" ∨ ty = some "CANCEL" ∨ ty = some "MOVE_DIR") →
        idf.getD "" = "" →
        webSocketEvent s (Inbound.json ty idf p ti pd td sp) now = (s, [])) := by
  refine ⟨?_, ?_, ?_, ?_⟩
  · intro s now ty idf p ti pd td sp hty hid
    rcases idf with _ | id
    · simp at hid
    simp only [Option.getD_some] at hid ⊢
    rcases hty with h | h | h | h <;> subst h
    · rw [wse_move s id p ti pd td sp now hid]
      simp [handleMove]
    · rw [wse_cancel s id p ti pd td sp now hid]
      unfold handleCancel
      split_ifs <;> simp [isStatus]
    · rw [wse_moveDir s id p ti pd td sp now hid]
      unfold handleMoveDir
      dsimp only
      split_ifs <;> simp [isStatus]
    · rw [wse_stop s (some id) p ti pd td sp now]
      simp only [Option.getD_some]
      unfold handleStop
      split_ifs <;> simp [isStatus]
  · intro s now
    rfl
  · intro s now ty idf p ti pd td sp h1 h2 h3 h4 h5
    unfold webSocketEvent
    dsimp only
    rw [if_neg h1, if_neg h2, if_neg h3, if_neg h4, if_neg h5]
  · intro s now ty idf p ti pd td sp hty hid
    rcases hty with h | h | h <;> subst h <;>
      unfold webSocketEvent <;> dsimp only <;> simp only [Option.getD_some] <;>
      [rw [if_pos trivial, if_pos hid];
       rw [if_neg (by decide), if_pos trivial, if_pos hid];
       rw [if_neg (by decide), if_neg (by decide), if_neg (by decide), if_pos trivial,
           if_pos hid]]

theorem c5_witness :
    (webSocketEvent initSt (cancelMsg "z") 0).2.head? = some (OutMsg.ack "z") ∧
    webSocketEvent initSt Inbound.parseError 0 = (initSt, []) :=
  ⟨(c5_ack_discipline.1 initSt 0 (some "CANCEL") (some "z") none none none none none
      (Or.inr (Or.inl rfl)) (by decide)).1,
   c5_ack_discipline.2.1 initSt 0⟩

lemma handleCancel_notfound (s : St) (sid : String) (h : ¬ cancelFound s sid) :
    handleCancel s sid =
      (s, [OutMsg.ack sid,
           OutMsg.status sid "ERROR" s.currentPan s.currentTilt (some "not_active")]) := by
  unfold handleCancel
  rw [if_neg (fun hc => h (Or.inl hc)), if_neg (fun hc => h (Or.inr hc))]

theorem c6_cancel_semantics (s : St) (sid : String) (now : Nat) (h : sid ≠ "") :
    ((webSocketEvent s (cancelMsg sid) now).2 =
        [OutMsg.ack sid, OutMsg.status sid "CANCELLED" s.currentPan s.currentTilt none]
      ↔ cancelFound s sid) ∧
    (s.hasActive = true ∧ s.activeCmdId = sid →
      (webSocketEvent s (cancelMsg sid) now).1 = { s with cancelFlag := true }) ∧
    (¬(s.hasActive = true ∧ s.activeCmdId = sid) → (∃ c ∈ s.cmdQueue, c.id = sid) →
      (webSocketEvent s (cancelMsg sid) now).1 =
        { s with cmdQueue := eraseFirstById s.cmdQueue sid }) ∧
    (¬ cancelFound s sid →
      (webSocketEvent s (cancelMsg sid) now).1 = s ∧
      (webSocketEvent s (cancelMsg sid) now).2 =
        [OutMsg.ack sid, OutMsg.status sid "ERROR" s.currentPan s.currentTilt
          (some "not_active")]) ∧
    (¬ cancelFound s sid →
      (webSocketEvent (webSocketEvent s (cancelMsg sid) now).1 (cancelMsg sid) now).2 =
        [OutMsg.ack sid, OutMsg.status sid "ERROR" s.currentPan s.currentTilt
          (some "not_active")]) := by
  have hw : webSocketEvent s (cancelMsg sid) now = handleCancel s sid := by
    unfold cancelMsg
    exact wse_cancel s sid none none none none none now h
  refine ⟨?_, ?_, ?_, ?_, ?_⟩
  · constructor
    · intro hout
      by_contra hnf
      rw [hw, handleCancel_notfound s sid hnf] at hout
      simp at hout
    · intro hf
      rw [hw]
      unfold handleCancel
      by_cases h1 : s.hasActive = true ∧ s.activeCmdId = sid
      · rw [if_pos h1]
      · rw [if_neg h1, if_pos (hf.resolve_left h1)]
  · intro h1
    rw [hw]
    unfold handleCancel
    rw [if_pos h1]
  · intro h1 h2
    rw [hw]
    unfold handleCancel
    rw [if_neg h1, if_pos h2]
  · intro hnf
    rw [hw, handleCancel_notfound s sid hnf]
    exact ⟨rfl, rfl⟩
  · intro hnf
    rw [hw, handleCancel_notfound s sid hnf]
    dsimp only
    have hw2 : webSocketEvent s (cancelMsg sid) now = handleCancel s sid := hw
    rw [hw2, handleCancel_notfound s sid hnf]

theorem c6_witness :
    (webSocketEvent initSt (cancelMsg "q") 0).1 = initSt ∧
    (webSocketEvent initSt (cancelMsg "q") 0).2 =
      [OutMsg.ack "q", OutMsg.status "q" "ERROR" 90 90 (some "not_active")] :=
  (c6_cancel_semantics initSt "q" 0 (by decide)).2.2.2.1
    (by unfold cancelFound initSt; simp)

theorem c7_stop_semantics (s : St) (idField : Option String) (now : Nat) :
    (s.hasActive = true ∧ s.activeMode = 2 ∧
        (idField.getD "" = "" ∨ s.activeCmdId = idField.getD "") →
      (webSocketEvent s (stopMsg idField) now).2 =
        [OutMsg.ack (idField.getD ""),
         OutMsg.status (idField.getD "") "STOPPED" s.currentPan s.currentTilt none] ∧
      (webSocketEvent s (stopMsg idField) now).1 =
        { s with panDir := 0, tiltDir := 0, activeMode := 0, hasActive := false,
                 cancelFlag := false, preemptFlag := false }) ∧
    (¬(s.hasActive = true ∧ s.activeMode = 2 ∧
        (idField.getD "" = "" ∨ s.activeCmdId = idField.getD "")) →
      (webSocketEvent s (stopMsg idField) now).2 =
        [OutMsg.ack (idField.getD ""),
         OutMsg.status (idField.getD "") "ERROR" s.currentPan s.currentTilt
           (some "not_active")] ∧
      (webSocketEvent s (stopMsg idField) now).1 = s) := by
  have hw : webSocketEvent s (stopMsg idField) now = handleStop s (idField.getD "") := by
    unfold stopMsg
    exact wse_stop s idField none none none none none now
  constructor
  · intro hc
    rw [hw]
    unfold handleStop
    rw [if_pos hc]
    exact ⟨rfl, rfl⟩
  · intro hc
    rw [hw]
    unfold handleStop
    rw [if_neg hc]
    exact ⟨rfl, rfl⟩

theorem c7_witness :
    (webSocketEvent dirActiveSt (stopMsg none) 0).2 =
      [OutMsg.ack "", OutMsg.status "" "STOPPED" 90 90 none] ∧
    (webSocketEvent dirActiveSt (stopMsg none) 0).1 =
      { initSt with activeCmdId := "d" } :=
  (c7_stop_semantics dirActiveSt none 0).1 ⟨rfl, rfl, Or.inl rfl⟩

theorem c8_movedir_none_degenerates (s : St) (id pd td : String) (sp : Int) (now : Nat)
    (hid : id ≠ "") (hp : panDirOf pd = 0) (ht : tiltDirOf td = 0) :
    (webSocketEvent s (mdMsg id pd td sp) now).2 =
      OutMsg.ack id ::
        (if s.hasActive = true ∧ s.activeMode = 1 then
          [OutMsg.status s.activeCmdId "PREEMPTED" s.currentPan s.currentTilt none]
        else []) ++
        [OutMsg.status id "STOPPED" s.currentPan s.currentTilt none] ∧
    (webSocketEvent s (mdMsg id pd td sp) now).1.hasActive = false ∧
    (webSocketEvent s (mdMsg id pd td sp) now).1.activeMode = 0 ∧
    (webSocketEvent s (mdMsg id pd td sp) now).1.activeCmdId = "" ∧
    (webSocketEvent s (mdMsg id pd td sp) now).1.currentPan = s.currentPan ∧
    (webSocketEvent s (mdMsg id pd td sp) now).1.currentTilt = s.currentTilt ∧
    (∀ m ∈ (webSocketEvent s (mdMsg id pd td sp) now).2, isMoving m = false) ∧
    (∀ now2, stepPhase (webSocketEvent s (mdMsg id pd td sp) now).1 now2 =
      ((webSocketEvent s (mdMsg id pd td sp) now).1, [])) := by
  have hw : webSocketEvent s (mdMsg id pd td sp) now = handleMoveDir s id pd td sp now := by
    unfold mdMsg
    exact wse_moveDir s id none none (some pd) (some td) (some sp) now hid
  rw [hw]
  unfold handleMoveDir
  dsimp only
  rw [hp, ht, if_neg (by simp)]
  refine ⟨rfl, rfl, rfl, rfl, rfl, rfl, ?_, ?_⟩
  · intro m hm
    rcases List.mem_cons.mp hm with h1 | h2
    · subst h1; rfl
    rcases List.mem_append.mp h2 with h3 | h4
    · split_ifs at h3 with hpre
      · rcases List.mem_singleton.mp h3 with h5
        subst h5; rfl
      · simp at h3
    · rcases List.mem_singleton.mp h4 with h5
      subst h5; rfl
  · intro now2
    unfold stepPhase
    rw [if_neg (by simp), if_neg (by simp)]

theorem c8_witness :
    (webSocketEvent initSt (mdMsg "n" "NONE" "NONE" 1) 0).2 =
      [OutMsg.ack "n", OutMsg.status "n" "STOPPED" 90 90 none] ∧
    (webSocketEvent initSt (mdMsg "n" "NONE" "NONE" 1) 0).1.hasActive = false ∧
    (webSocketEvent initSt (mdMsg "n" "NONE" "NONE" 1) 0).1.activeMode = 0 := by
  have h := c8_movedir_none_degenerates initSt "n" "NONE" "NONE" 1 0
    (by decide) (by decide) (by decide)
  refine ⟨?_, h.2.1, h.2.2.1⟩
  have h1 := h.1
  simpa using h1

theorem c9_directional_timeout (s : St) (now : Nat)
    (hA : s.hasActive = true) (hm : s.activeMode = 2) (hc : s.cancelFlag = false) :
    ((s.panDir ≠ 0 ∨ s.tiltDir ≠ 0) → now - s.cmdStartMillis > COMMAND_TIMEOUT_MS →
      (tick s now).2 =
        [OutMsg.status s.activeCmdId "TIMEOUT" (dirPanNext s) (dirTiltNext s) none] ∧
      (tick s now).1.hasActive = false ∧ (tick s now).1.activeMode = 0 ∧
      (tick s now).1.activeCmdId = "" ∧ (tick s now).1.panDir = 0 ∧
      (tick s now).1.tiltDir = 0 ∧ (tick s now).1.cmdQueue = s.cmdQueue) ∧
    (¬(now - s.cmdStartMillis > COMMAND_TIMEOUT_MS) →
      (tick s now).2 = [] ∧ (tick s now).1.hasActive = true ∧
      (tick s now).1.activeMode = 2 ∧ (tick s now).1.activeCmdId = s.activeCmdId) ∧
    (s.panDir = 0 ∧ s.tiltDir = 0 → ∀ m ∈ (tick s now).2, isTimeout m = false) := by
  have hd : dequeuePhase s now = s := by
    unfold dequeuePhase
    rw [if_neg (by simp [hA])]
  have ht : tick s now = stepPhase s now := by
    unfold tick
    rw [hd]
  refine ⟨?_, ?_, ?_⟩
  · intro hdir hto
    rw [ht]
    unfold stepPhase
    rw [if_pos hm]
    dsimp only
    rw [if_neg (by simp [hc]), if_pos hto, if_pos hdir]
    exact ⟨rfl, rfl, rfl, rfl, rfl, rfl, rfl⟩
  · intro hto
    rw [ht]
    unfold stepPhase
    rw [if_pos hm]
    dsimp only
    rw [if_neg (by simp [hc]), if_neg hto]
    exact ⟨rfl, hA, hm, rfl⟩
  · intro hdir m hmem
    rw [ht] at hmem
    unfold stepPhase at hmem
    rw [if_pos hm] at hmem
    dsimp only at hmem
    rw [if_neg (by simp [hc])] at hmem
    by_cases hto : now - s.cmdStartMillis > COMMAND_TIMEOUT_MS
    · rw [if_pos hto, if_neg (by simp [hdir.1, hdir.2])] at hmem
      simp at hmem
    · rw [if_neg hto] at hmem
      simp at hmem

theorem c9_witness :
    (tick dirActiveSt 4500).2 =
      [OutMsg.status "d" "TIMEOUT" 91 90 none] := by
  have h := (c9_directional_timeout dirActiveSt 4500 rfl rfl rfl).1
    (Or.inl (by decide)) (by decide)
  have h1 := h.1
  simpa [dirPanNext, dirTiltNext, constrain, PAN_MIN, PAN_MAX, TILT_MIN_SAFE, TILT_MAX]
    using h1

theorem c10_http_move :
    (∀ s : FinalCpp.WebSt,
      FinalCpp.handleMove s (some "pan_left") =
        ({ pan := max FinalCpp.PAN_MIN (s.pan - FinalCpp.STEP_SIZE), tilt := s.tilt },
         FinalCpp.Resp.okJson (max FinalCpp.PAN_MIN (s.pan - FinalCpp.STEP_SIZE)) s.tilt) ∧
      FinalCpp.handleMove s (some "pan_right") =
        ({ pan := min FinalCpp.PAN_MAX (s.pan + FinalCpp.STEP_SIZE), tilt := s.tilt },
         FinalCpp.Resp.okJson (min FinalCpp.PAN_MAX (s.pan + FinalCpp.STEP_SIZE)) s.tilt) ∧
      FinalCpp.handleMove s (some "tilt_up") =
        ({ pan := s.pan, tilt := min FinalCpp.TILT_MAX (s.tilt + FinalCpp.STEP_SIZE) },
         FinalCpp.Resp.okJson s.pan (min FinalCpp.TILT_MAX (s.tilt + FinalCpp.STEP_SIZE))) ∧
      FinalCpp.handleMove s (some "tilt_down") =
        ({ pan := s.pan, tilt := max FinalCpp.TILT_MIN_SAFE (s.tilt - FinalCpp.STEP_SIZE) },
         FinalCpp.Resp.okJson s.pan
           (max FinalCpp.TILT_MIN_SAFE (s.tilt - FinalCpp.STEP_SIZE)))) ∧
    (∀ (s : FinalCpp.WebSt) (d : String),
      d ≠ "pan_left" → d ≠ "pan_right" → d ≠ "tilt_up" → d ≠ "tilt_down" →
      FinalCpp.handleMove s (some d) = (s, FinalCpp.Resp.okJson s.pan s.tilt)) ∧
    (∀ (s : FinalCpp.WebSt) (d : String),
      ((FinalCpp.handleMove s (some d)).2).code = 200) ∧
    (∀ s : Nodemcu.WebSt,
      Nodemcu.handleMove s (some "pan_left") =
        ({ pan := max Nodemcu.PAN_MIN (s.pan - Nodemcu.STEP_SIZE), tilt := s.tilt },
         Nodemcu.Resp.okJson (max Nodemcu.PAN_MIN (s.pan - Nodemcu.STEP_SIZE)) s.tilt) ∧
      Nodemcu.handleMove s (some "pan_right") =
        ({ pan := min Nodemcu.PAN_MAX (s.pan + Nodemcu.STEP_SIZE), tilt := s.tilt },
         Nodemcu.Resp.okJson (min Nodemcu.PAN_MAX (s.pan + Nodemcu.STEP_SIZE)) s.tilt) ∧
      Nodemcu.handleMove s (some "tilt_up") =
        ({ pan := s.pan, tilt := min Nodemcu.TILT_MAX (s.tilt + Nodemcu.STEP_SIZE) },
         Nodemcu.Resp.okJson s.pan (min Nodemcu.TILT_MAX (s.tilt + Nodemcu.STEP_SIZE))) ∧
      Nodemcu.handleMove s (some "tilt_down") =
        ({ pan := s.pan, tilt := max Nodemcu.TILT_MIN_SAFE (s.tilt - Nodemcu.STEP_SIZE) },
         Nodemcu.Resp.okJson s.pan
           (max Nodemcu.TILT_MIN_SAFE (s.tilt - Nodemcu.STEP_SIZE)))) ∧
    (∀ (s : Nodemcu.WebSt) (d : String),
      d ≠ "pan_left" → d ≠ "pan_right" → d ≠ "tilt_up" → d ≠ "tilt_down" →
      Nodemcu.handleMove s (some d) = (s, Nodemcu.Resp.okJson s.pan s.tilt)) ∧
    (∀ (s : Nodemcu.WebSt) (d : String),
      ((Nodemcu.handleMove s (some d)).2).code = 200) := by
  refine ⟨fun s => ⟨rfl, rfl, rfl, rfl⟩, ?_, fun s d => rfl,
          fun s => ⟨rfl, rfl, rfl, rfl⟩, ?_, fun s d => rfl⟩
  · intro s d h1 h2 h3 h4
    unfold FinalCpp.handleMove FinalCpp.applyDir
    dsimp only
    rw [if_neg h1, if_neg h2, if_neg h3, if_neg h4]
  · intro s d h1 h2 h3 h4
    unfold Nodemcu.handleMove Nodemcu.applyDir
    dsimp only
    rw [if_neg h1, if_neg h2, if_neg h3, if_neg h4]

theorem c10_witness :
    FinalCpp.handleMove ⟨90, 90⟩ (some "noop") = (⟨90, 90⟩, FinalCpp.Resp.okJson 90 90) ∧
    Nodemcu.handleMove ⟨90, 90⟩ (some "noop") = (⟨90, 90⟩, Nodemcu.Resp.okJson 90 90) :=
  ⟨c10_http_move.2.1 ⟨90, 90⟩ "noop" (by decide) (by decide) (by decide) (by decide),
   c10_http_move.2.2.2.2.1 ⟨90, 90⟩ "noop" (by decide) (by decide) (by decide) (by decide)⟩
